import Mathlib

/-!
Verification development for the `tome` library (src/tome/__init__.py), a
Python-2 dictionary utility: an enriched key-value container with metadata,
flip/search algorithms and serialization.

Modelling conventions (shallow embedding):
- Python dictionaries are association lists `List (PyVal × PyVal)` in
  iteration (insertion) order, with unique keys as a use-site invariant.
- Python scalar values are `PyVal` (str/int/bool/None; floats out of scope).
- Python runtime errors are `PyErr`; fallible operations return `Except`.
- The external fuzzy-matching collaborator (`fuzzywuzzy.process.extractBests`)
  and compiled regular expressions (`re` objects) are abstract capabilities
  passed as parameters, per the spec's external-interface section.
-/

/-! ## Definitions -/

/-- Python scalar values appearing as dictionary keys and values. -/
inductive PyVal where
  | pyStr (s : String)
  | pyInt (n : Int)
  | pyBool (b : Bool)
  | pyNone
deriving DecidableEq, Repr

/-- Python runtime errors relevant to the library. `nameError` is a reference
to an undefined global name (the module never imports `re`);
`unboundLocalError` is a local variable read before assignment;
`invalidWhereOption` is the error named by the spec's error taxonomy — the
source defines no such exception, the constructor exists only so that the
spec's claim about it can be stated. -/
inductive PyErr where
  | nameError
  | unboundLocalError
  | typeError
  | keyError
  | invalidWhereOption
deriving DecidableEq, Repr

/-- A Python dictionary as an association list in iteration order. -/
abbrev PyDict := List (PyVal × PyVal)

/-- Python `str()` on a scalar value. -/
def pyValStr : PyVal → String
  | .pyStr s => s
  | .pyInt n => toString n
  | .pyBool true => "True"
  | .pyBool false => "False"
  | .pyNone => "None"

/-- Dictionary lookup `y[v]` / `v in y` support: first binding of a key. -/
def assocLookup {α β : Type} [DecidableEq α] : List (α × β) → α → Option β
  | [], _ => none
  | (a, b) :: rest, v => if a = v then some b else assocLookup rest v

/-- Overwrite the value stored at an existing key, keeping its position. -/
def assocUpdate {α β : Type} [DecidableEq α] : List (α × β) → α → β → List (α × β)
  | [], _, _ => []
  | (a, b0) :: rest, v, b => if a = v then (a, b) :: rest else (a, b0) :: assocUpdate rest v b

/-- Python `d[k] = v`: overwrite in place when the key exists (position kept),
otherwise append as the newest insertion. -/
def dictSet (d : PyDict) (k v : PyVal) : PyDict :=
  if (assocLookup d k).isSome then assocUpdate d k v else d ++ [(k, v)]

/-- A dict built left-to-right from a pair sequence (Python dict comprehension
or `dict()` semantics: later duplicate keys overwrite, position of first wins). -/
def dictOfPairs (ps : PyDict) : PyDict :=
  ps.foldl (fun acc kv => dictSet acc kv.1 kv.2) []

/-- Python `d1.update(d2)` on dictionaries. -/
def dictUpdate (d upd : PyDict) : PyDict :=
  upd.foldl (fun acc kv => dictSet acc kv.1 kv.2) d

/-! ### flip_key_val (src/tome/__init__.py lines 19-52)

The library applies `container(key)` to a stored key on the first collision;
for `container=list` that is Python `list(key)`, which iterates the key, so
keys here are modelled as Python strings, whose iteration yields their
one-character substrings. -/

/-- Python `list(s)` for a string `s`: its one-character strings. -/
def strToCharStrs (s : String) : List String :=
  s.data.map (fun c => String.mk [c])

/-- An entry of the result of `flip_key_val(smart=True, container=list)`:
either the originating key as stored on first encounter (scalar), or the
list container built on a collision. -/
inductive FlipVal where
  | scalar (k : String)
  | lst (ks : List String)
deriving DecidableEq, Repr

/-- One iteration of the smart-flip loop for `container=list`
(src lines 31-48): on a fresh value insert the key as a scalar; if the stored
entry is not yet a list, replace it by `list(stored_key)` and append the new
key; if the stored entry already is a list, the whole branch body is skipped
and the new key is dropped. -/
def flipStepList (y : List (PyVal × FlipVal)) (k : String) (v : PyVal) :
    List (PyVal × FlipVal) :=
  match assocLookup y v with
  | none => y ++ [(v, .scalar k)]
  | some (.scalar k0) => assocUpdate y v (.lst (strToCharStrs k0 ++ [k]))
  | some (.lst _) => y

/-- `flip_key_val(x, smart=True, container=list)` over an association list in
iteration order. -/
def flip_key_val_smart_list (x : List (String × PyVal)) : List (PyVal × FlipVal) :=
  x.foldl (fun y kv => flipStepList y kv.1 kv.2) []

/-! ### regex_search (src/tome/__init__.py lines 54-69) -/

/-- A compiled regular expression object, modelled by its `.match` method:
a prefix-anchored Boolean match against a string (matching must start at
position 0). The `re` module is an external collaborator. -/
structure CompiledRe where
  matchAt0 : String → Bool

/-- The `pattern` argument of `regex_search`: a string, or an
already-compiled regular expression. -/
inductive RePatternArg where
  | strPat (p : String)
  | compiled (r : CompiledRe)

/-- `regex_search(x, pattern, where)` (src lines 54-69). The module never
imports `re`, so the string-pattern branch evaluates the undefined global
name `re` and raises NameError; with a precompiled pattern the dispatch on
`where` runs, and an unrecognized option falls through every branch and
returns the never-assigned local `result`, raising UnboundLocalError. -/
def regex_search (x : PyDict) (pattern : RePatternArg) (w : String) :
    Except PyErr PyDict :=
  match pattern with
  | .strPat _ => .error .nameError
  | .compiled r =>
    if w = "keys" then
      .ok (x.filter fun kv => r.matchAt0 (pyValStr kv.1))
    else if w = "values" then
      .ok (x.filter fun kv => r.matchAt0 (pyValStr kv.2))
    else if w = "both" then
      .ok (x.filter fun kv => r.matchAt0 (pyValStr kv.1) || r.matchAt0 (pyValStr kv.2))
    else .error .unboundLocalError

/-- The compiled form of the regular expression "ca": a prefix-anchored match
of a two-character literal. -/
def caRe : CompiledRe := ⟨fun s => s.take 2 == "ca"⟩

/-- The spec's example dictionary for regex search. -/
def catDict : PyDict :=
  [(.pyStr "cat", .pyInt 1), (.pyStr "car", .pyInt 2), (.pyStr "dog", .pyInt 3)]

/-! ### fuzzy_search and fuzzy_matches (src/tome/__init__.py lines 71-109)

`fuzzywuzzy.process.extractBests` is the external fuzzy-matching
collaborator: over a list of candidates it yields (candidate, score) pairs,
over a dictionary it yields (value, score, key) triples; `score_cutoff` and
`limit` are passed through to it. -/

/-- The external fuzzy-matching capability, as the spec's external-interface
section describes it: arguments are query, candidates, score_cutoff, limit. -/
structure FuzzyCap where
  extractBestsKeys : String → List PyVal → Nat → Nat → List (PyVal × Nat)
  extractBestsDict : String → PyDict → Nat → Nat → List (PyVal × Nat × PyVal)

/-- The dict comprehension over key matches: each matched key is looked up in
`x`; a candidate that is not a key of `x` raises KeyError. -/
def dictOfKeyMatches (x : PyDict) (ms : List (PyVal × Nat)) : Except PyErr PyDict :=
  match ms.mapM (fun m => match assocLookup x m.1 with
    | some v => Except.ok (m.1, v)
    | none => Except.error PyErr.keyError) with
  | .ok ps => .ok (dictOfPairs ps)
  | .error e => .error e

/-- The dict comprehension over value matches: built directly from the
(value, score, key) triples, key last-wins on duplicates. -/
def dictOfValMatches (ms : List (PyVal × Nat × PyVal)) : PyDict :=
  dictOfPairs (ms.map fun m => (m.2.2, m.1))

/-- `fuzzy_search(x, query, where, score_cutoff, limit)` (src lines 71-91):
dispatch on `where`; an unrecognized option falls through every branch and
returns the never-assigned local `results`, raising UnboundLocalError. -/
def fuzzy_search (cap : FuzzyCap) (x : PyDict) (query : String) (w : String)
    (score_cutoff limit : Nat) : Except PyErr PyDict :=
  if w = "keys" then
    dictOfKeyMatches x (cap.extractBestsKeys query (x.map Prod.fst) score_cutoff limit)
  else if w = "values" then
    .ok (dictOfValMatches (cap.extractBestsDict query x score_cutoff limit))
  else if w = "both" then
    match dictOfKeyMatches x (cap.extractBestsKeys query (x.map Prod.fst) score_cutoff limit) with
    | .ok keyResults =>
        .ok (dictUpdate keyResults (dictOfValMatches (cap.extractBestsDict query x score_cutoff limit)))
    | .error e => .error e
  else .error .unboundLocalError

/-- A raw fuzzy match record: a (candidate, score) pair for a key match, a
(candidate, score, originating key) triple for a value match. -/
inductive MatchRec where
  | keyMatch (c : PyVal) (score : Nat)
  | valMatch (c : PyVal) (score : Nat) (k : PyVal)
deriving DecidableEq, Repr

/-- `fuzzy_matches(x, query, where, score_cutoff, limit)` (src lines 93-109).
The `keys` and `values` branches assign only the local `matches`; the
function returns the local `results`, which only the `both` branch assigns,
so `keys`/`values` (and any unrecognized option) raise UnboundLocalError. -/
def fuzzy_matches (cap : FuzzyCap) (x : PyDict) (query : String) (w : String)
    (score_cutoff limit : Nat) : Except PyErr (List MatchRec) :=
  let _matches : Option (List MatchRec) :=
    if w = "keys" then
      some ((cap.extractBestsKeys query (x.map Prod.fst) score_cutoff limit).map
        fun m => .keyMatch m.1 m.2)
    else if w = "values" then
      some ((cap.extractBestsDict query x score_cutoff limit).map
        fun m => .valMatch m.1 m.2.1 m.2.2)
    else none
  let results : Option (List MatchRec) :=
    if w = "both" then
      some (((cap.extractBestsKeys query (x.map Prod.fst) score_cutoff limit).map
          fun m => MatchRec.keyMatch m.1 m.2)
        ++ ((cap.extractBestsDict query x score_cutoff limit).map
          fun m => MatchRec.valMatch m.1 m.2.1 m.2.2))
    else none
  match results with
  | some r => .ok r
  | none => .error .unboundLocalError

/-- A concrete fuzzy-matching capability used to evaluate the functions at
concrete inputs: it reports every candidate with score 100. -/
def allCap : FuzzyCap :=
  ⟨fun _ ks _ _ => ks.map (fun k => (k, 100)),
   fun _ d _ _ => d.map (fun kv => (kv.2, 100, kv.1))⟩

/-! ### levenshtein_distance

Modelled from the spec: `levenshtein_distance(a, b)` is described by the
specification (classic unit-cost, case-sensitive edit distance computed by a
single-row dynamic program) but is absent from src/; no source file defines
it. The definitions below follow the spec's words: a row of distances is
maintained and updated once per character of the first string, and the
distance is read off the final row. -/

/-- Base row: edit distances from the empty string to every suffix of `b`,
namely `[|b|, |b| - 1, ..., 0]`. -/
def levBase : List Char → List Nat
  | [] => [0]
  | _ :: ys => (ys.length + 1) :: levBase ys

/-- One row update of the single-row dynamic program: given the row of
distances from `xs` to every suffix of the remaining text, produce the row of
distances from `x :: xs`. Entries follow the classic recurrence
(match cost 0, insert/delete/substitute cost 1). -/
def levStepAux (x : Char) : List Char → List Nat → List Nat
  | [], pr => [pr.headD 0 + 1]
  | y :: ys, pr =>
      match pr with
      | [] => []
      | p :: ps =>
        let rest := levStepAux x ys ps
        (if x = y then ps.headD 0
         else 1 + min p (min (rest.headD 0) (ps.headD 0))) :: rest

/-- The row of edit distances from `a` to every suffix of `b`. -/
def levRow : List Char → List Char → List Nat
  | [], b => levBase b
  | x :: xs, b => levStepAux x b (levRow xs b)

/-- Modelled from the spec: `levenshtein_distance(a, b)`, the classic
unit-cost case-sensitive edit distance between two strings, computed by the
single-row dynamic program. -/
def levenshtein_distance (a b : String) : Nat :=
  (levRow a.data b.data).headD 0

/-- Reference recurrence for the unit-cost edit distance (proof helper):
equal heads cost nothing, otherwise one plus the best of
deletion / insertion / substitution. -/
def levM : List Char → List Char → Nat
  | [], ys => ys.length
  | _ :: xs, [] => xs.length + 1
  | x :: xs, y :: ys =>
      if x = y then levM xs ys
      else 1 + min (levM xs (y :: ys)) (min (levM (x :: xs) ys) (levM xs ys))
termination_by xs ys => xs.length + ys.length

/-! ### Tome (src/tome/__init__.py lines 147-272) and DataDict (113-145)

`Tome.__init__` assigns `self.data = data` verbatim: a `None` default stays
`None` (the DataDict guard that would create an empty dict is overridden and
never runs). The inherited adapter operations act on `self.data`; on `None`
they raise TypeError. -/

structure Tome where
  data : Option PyDict
  name : String
  description : String
  date : Option String
  key : String
  value : String
  authority : String
  reference : String
  living : Bool
  derived : Bool
  source : Option String
deriving DecidableEq, Repr

/-- `Tome(data)` with every other keyword left at its default
(src lines 162-180): `data` is stored exactly as passed. -/
def Tome.init (data : Option PyDict) : Tome :=
  ⟨data, "Tome", "A container of information.", none, "", "", "", "", false, false, none⟩

/-- `len(t)` via DataDict.__len__: `len(self.data)`, TypeError on None. -/
def Tome.length (t : Tome) : Except PyErr Nat :=
  match t.data with
  | none => .error .typeError
  | some d => .ok d.length

/-- `iter(t)` via DataDict.__iter__: the keys in iteration order,
TypeError on None. -/
def Tome.iterKeys (t : Tome) : Except PyErr (List PyVal) :=
  match t.data with
  | none => .error .typeError
  | some d => .ok (d.map Prod.fst)

/-- `t[k]` via DataDict.__getitem__: TypeError on None, KeyError when the
key is absent. -/
def Tome.getItem (t : Tome) (k : PyVal) : Except PyErr PyVal :=
  match t.data with
  | none => .error .typeError
  | some d =>
    match assocLookup d k with
    | some v => .ok v
    | none => .error .keyError

/-- `t[k] = v` via DataDict.__setitem__: TypeError on None. -/
def Tome.setItem (t : Tome) (k v : PyVal) : Except PyErr Tome :=
  match t.data with
  | none => .error .typeError
  | some d => .ok { t with data := some (dictSet d k v) }

/-- `del t[k]` via DataDict.__delitem__: TypeError on None, KeyError when
the key is absent. -/
def Tome.delItem (t : Tome) (k : PyVal) : Except PyErr Tome :=
  match t.data with
  | none => .error .typeError
  | some d =>
    match assocLookup d k with
    | some _ => .ok { t with data := some (d.filter fun kv => !(kv.1 = k : Bool)) }
    | none => .error .keyError

/-- `Tome.copy(deep=True)` (src lines 182-183): a deep copy; in this pure
model a structurally identical value. -/
def Tome.copy (t : Tome) : Tome := t

/-- `Tome.astype(new_type)` (src lines 185-189): deep-copies the record, then
rebinds the copy's `data` to a brand-new mapping with every value passed
through `new_type` and keys untouched (the original record is never
mutated); `iteritems` on an absent (`None`) mapping raises TypeError. -/
def Tome.astype (t : Tome) (new_type : PyVal → PyVal) : Except PyErr Tome :=
  match (Tome.copy t).data with
  | none => .error .typeError
  | some d => .ok { t.copy with data := some (d.map fun kv => (kv.1, new_type kv.2)) }

/-- Python `str` as a conversion function for `astype(str)`. -/
def pyStrConv (v : PyVal) : PyVal := .pyStr (pyValStr v)

/-! ### to_pickle (src/tome/__init__.py lines 199-208)

Pickle bytes are opaque implementation-defined output, so the two
serializers are modelled as tagged applications to their argument: what
matters for the claims is which serializer runs on what. -/

/-- An in-memory serialization output, tagged by the serializer that
produced it: `pickle.dumps(self.data)` or `json.dumps(self.__dict__)`. -/
inductive SerOut where
  | pickleOfDict (d : Option PyDict)
  | jsonOfRecord (t : Tome)
deriving DecidableEq, Repr

/-- `Tome.to_pickle(fp=None, data_only)` with no sink (src line 208):
`pickle.dumps(self.data) if data_only else json.dumps(self.__dict__)`. -/
def Tome.to_pickle_nosink (t : Tome) (data_only : Bool) : SerOut :=
  if data_only then .pickleOfDict t.data else .jsonOfRecord t

/-- Is a serialization output pickle bytes? -/
def SerOut.isPickle : SerOut → Bool
  | .pickleOfDict _ => true
  | .jsonOfRecord _ => false

/-! ### to_json (src/tome/__init__.py lines 210-219)

With no sink and `data_only=True` the method returns
`json.dumps(self.data, indent=indent)`. The standard `json` module is
modelled at the JSON-value level: a dictionary of scalars serializes to a
JSON object whose keys are the Python key coerced to a string (JSON object
keys are always strings), and `json.loads` reads an object back as a
dictionary with string keys, later duplicate keys overwriting earlier ones.
The textual printing/parsing of a JSON tree by the library is faithful and
is taken as the identity on trees; indentation only affects whitespace.
Floats are outside the model. -/

/-- A scalar JSON value. -/
inductive JVal where
  | jStr (s : String)
  | jInt (n : Int)
  | jBool (b : Bool)
  | jNull
deriving DecidableEq, Repr

/-- The `json` module's coercion of a scalar Python dict key to a JSON
object key: strings unchanged, int via its decimal representation, booleans
to "true"/"false", None to "null". -/
def pyKeyToJsonKey : PyVal → String
  | .pyStr s => s
  | .pyInt n => toString n
  | .pyBool true => "true"
  | .pyBool false => "false"
  | .pyNone => "null"

/-- Scalar Python value to JSON value. -/
def pyToJVal : PyVal → JVal
  | .pyStr s => .jStr s
  | .pyInt n => .jInt n
  | .pyBool b => .jBool b
  | .pyNone => .jNull

/-- JSON value back to the Python value `json.loads` yields. -/
def jValToPy : JVal → PyVal
  | .jStr s => .pyStr s
  | .jInt n => .pyInt n
  | .jBool b => .pyBool b
  | .jNull => .pyNone

/-- `json.dumps(self.data)` at the JSON-tree level: the serialized object,
keys coerced to strings. -/
def jsonDumpsData (d : PyDict) : List (String × JVal) :=
  d.map fun kv => (pyKeyToJsonKey kv.1, pyToJVal kv.2)

/-- `json.loads` of a serialized object: a dict with string keys, built with
Python dict semantics (later duplicate keys overwrite). -/
def jsonLoadsData (o : List (String × JVal)) : PyDict :=
  dictOfPairs (o.map fun kv => (.pyStr kv.1, jValToPy kv.2))

/-- `to_json(data_only=True)` with no sink, followed by parsing back. -/
def to_json_data_roundtrip (d : PyDict) : PyDict :=
  jsonLoadsData (jsonDumpsData d)

/-! ### to_csv (src/tome/__init__.py lines 221-236)

`csv_formater` and `header_formater` are Python format templates applied to
two arguments; they are modelled as two-argument string functions. The
metadata header joins, over the fixed header_order
[name, description, date, authority, reference, living, derived, source],
the formatted entries of the truthy fields (empty string, False and None are
falsy and skipped). -/

/-- The truthiness-filtered, formatted header entries of a record, in
header_order. -/
def Tome.headerParts (t : Tome) (hf : String → String → String) : List String :=
  (if t.name ≠ "" then [hf "name" t.name] else [])
  ++ (if t.description ≠ "" then [hf "description" t.description] else [])
  ++ (match t.date with
      | some s => if s ≠ "" then [hf "date" s] else []
      | none => [])
  ++ (if t.authority ≠ "" then [hf "authority" t.authority] else [])
  ++ (if t.reference ≠ "" then [hf "reference" t.reference] else [])
  ++ (if t.living then [hf "living" "True"] else [])
  ++ (if t.derived then [hf "derived" "True"] else [])
  ++ (match t.source with
      | some s => if s ≠ "" then [hf "source" s] else []
      | none => [])

/-- `Tome.to_csv(fp=None, data_only, csv_formater, header_formater)` with no
sink (src lines 226-228 and 236): the metadata header line appears only when
not data_only; the key/value label line and the data lines are appended
unconditionally; iterating an absent (`None`) mapping raises TypeError. -/
def Tome.to_csv_nosink (t : Tome) (data_only : Bool)
    (cf hf : String → String → String) : Except PyErr String :=
  match t.data with
  | none => .error .typeError
  | some d =>
    let header := if data_only then "" else String.intercalate ", " (t.headerParts hf) ++ "\n"
    let labeled := header ++ cf t.key t.value ++ "\n"
    .ok (labeled ++ String.intercalate "\n" (d.map fun kv => cf (pyValStr kv.1) (pyValStr kv.2)))

/-- The default `csv_formater`: the two fields joined by a comma. -/
def defaultCsvFormat (a b : String) : String := a ++ "," ++ b

/-- The default `header_formater`: "field: value". -/
def defaultHeaderFormat (a b : String) : String := a ++ ": " ++ b

/-- A record with semantic labels key="k", value="v" and the single data
pair ("x", "y"), all other fields at their defaults. -/
def csvRecord : Tome :=
  ⟨some [(.pyStr "x", .pyStr "y")], "Tome", "A container of information.",
    none, "k", "v", "", "", false, false, none⟩

/-- A record with labels key="a", value="b" and the single data pair
("p", "q"). -/
def csvRecordW : Tome :=
  ⟨some [(.pyStr "p", .pyStr "q")], "Tome", "A container of information.",
    none, "a", "b", "", "", false, false, none⟩

/-! ## Helper lemmas -/

theorem levM_self (l : List Char) : levM l l = 0 := by
  induction l with
  | nil => simp [levM]
  | cons x xs ih => simp [levM, ih]

theorem levM_nil_right (l : List Char) : levM l [] = l.length := by
  cases l <;> simp [levM]

theorem tails_map_headD (f : List Char → Nat) (l : List Char) :
    ((l.tails.map f).headD 0) = f l := by
  cases l <;> simp

theorem levBase_eq (b : List Char) : levBase b = b.tails.map List.length := by
  induction b with
  | nil => rfl
  | cons y ys ih => simp [levBase, ih]

theorem levStepAux_eq (x : Char) (xs : List Char) (b : List Char) :
    levStepAux x b (b.tails.map (levM xs)) = b.tails.map (levM (x :: xs)) := by
  induction b with
  | nil => simp [levStepAux, levM, levM_nil_right]
  | cons y ys ih =>
      simp only [List.tails_cons, List.map_cons, levStepAux]
      rw [ih, tails_map_headD, tails_map_headD]
      simp only [levM]

theorem levRow_eq (a b : List Char) : levRow a b = b.tails.map (levM a) := by
  induction a with
  | nil =>
      rw [levRow, levBase_eq]
      exact List.map_congr_left (fun t _ => by simp [levM])
  | cons x xs ih => rw [levRow, ih, levStepAux_eq]

theorem levRow_headD (a b : List Char) : (levRow a b).headD 0 = levM a b := by
  rw [levRow_eq]; exact tails_map_headD _ b

theorem assocLookup_append_none {l1 l2 : PyDict} {k : PyVal}
    (h1 : assocLookup l1 k = none) :
    assocLookup (l1 ++ l2) k = assocLookup l2 k := by
  induction l1 with
  | nil => rfl
  | cons p rest ih =>
      obtain ⟨a, b⟩ := p
      by_cases hak : a = k
      · simp [assocLookup, hak] at h1
      · rw [List.cons_append]
        simp only [assocLookup, if_neg hak] at h1 ⊢
        exact ih h1

theorem dictOfPairs_go (l : PyDict) :
    ∀ acc : PyDict, (∀ kv ∈ l, assocLookup acc kv.1 = none) →
    (l.map Prod.fst).Nodup →
    l.foldl (fun a kv => dictSet a kv.1 kv.2) acc = acc ++ l := by
  induction l with
  | nil => intro acc _ _; simp
  | cons kv rest ih =>
      intro acc h hnd
      have hq : assocLookup acc kv.1 = none := h kv (by simp)
      have hset : dictSet acc kv.1 kv.2 = acc ++ [kv] := by
        simp [dictSet, hq]
      rw [List.foldl_cons, hset]
      rw [List.map_cons, List.nodup_cons] at hnd
      rw [ih (acc ++ [kv]) ?_ hnd.2]
      · simp
      · intro kv2 hm
        have hne : ¬ kv.1 = kv2.1 := by
          intro he
          exact hnd.1 (he ▸ List.mem_map_of_mem Prod.fst hm)
        rw [assocLookup_append_none (h kv2 (List.mem_cons_of_mem _ hm))]
        simp [assocLookup, hne]

/-- Building a dict from pairs whose keys are already pairwise distinct is
the identity. -/
theorem dictOfPairs_nodup (l : PyDict) (hnd : (l.map Prod.fst).Nodup) :
    dictOfPairs l = l := by
  have h := dictOfPairs_go l [] (fun kv _ => rfl) hnd
  simpa [dictOfPairs] using h

theorem jValToPy_pyToJVal (v : PyVal) : jValToPy (pyToJVal v) = v := by
  cases v <;> rfl

/-! ## Claims -/

/-- C1: the claim that `flip_key_val(m, smart=True, container=list)` merges
every subsequent colliding key fails on the code: with three keys sharing
one value the third key is silently dropped, because the merge branch only
runs while the stored entry is not yet a list. The two-collision example of
the spec ({a:1, b:1, c:2} flipping to {1:[a,b], 2:c}) does hold. -/
theorem flip_smart_list_drops_third_collision :
    flip_key_val_smart_list [("a", .pyInt 1), ("b", .pyInt 1), ("c", .pyInt 1)]
      = [(.pyInt 1, .lst ["a", "b"])]
    ∧ flip_key_val_smart_list [("a", .pyInt 1), ("b", .pyInt 1), ("c", .pyInt 1)]
      ≠ [(.pyInt 1, .lst ["a", "b", "c"])]
    ∧ flip_key_val_smart_list [("a", .pyInt 1), ("b", .pyInt 1), ("c", .pyInt 2)]
      = [(.pyInt 1, .lst ["a", "b"]), (.pyInt 2, .scalar "c")] :=
  ⟨rfl, by decide, rfl⟩

/-- C2: `regex_search` with the spec's example (string pattern "ca",
where="keys") raises NameError, because the module never imports `re`; with
an already-compiled prefix-anchored pattern for "ca" the dispatch does
return exactly the claimed subset {"cat": 1, "car": 2}. -/
theorem regex_search_string_pattern_raises_name_error :
    regex_search catDict (.strPat "ca") "keys" = .error .nameError
    ∧ regex_search catDict (.compiled caRe) "keys"
      = .ok [(.pyStr "cat", .pyInt 1), (.pyStr "car", .pyInt 2)] :=
  ⟨rfl, rfl⟩

/-- C3: the modelled `levenshtein_distance` satisfies the three claimed
properties: zero on equal strings, the other string's length when one side
is empty, and distance 3 between "kitten" and "sitting". -/
theorem levenshtein_distance_spec :
    (∀ s : String, levenshtein_distance s s = 0)
    ∧ (∀ s : String, levenshtein_distance "" s = s.length)
    ∧ levenshtein_distance "kitten" "sitting" = 3 := by
  refine ⟨fun s => ?_, fun s => ?_, by decide⟩
  · rw [levenshtein_distance, levRow_headD]
    exact levM_self _
  · rw [levenshtein_distance, levRow_headD]
    show levM [] s.data = s.length
    rw [levM]
    rfl

/-- Witness for C3 at a concrete string. -/
theorem levenshtein_distance_spec_witness :
    levenshtein_distance "tome" "tome" = 0 :=
  levenshtein_distance_spec.1 "tome"

/-- C4: `to_pickle` with no sink and data_only=False returns
`json.dumps(self.__dict__)` — a JSON text of the record — and not pickle
output, contradicting the claim (and the method's own docstring). -/
theorem to_pickle_full_record_returns_json_text :
    (Tome.init (some [(.pyStr "x", .pyStr "y")])).to_pickle_nosink false
      = .jsonOfRecord (Tome.init (some [(.pyStr "x", .pyStr "y")]))
    ∧ ((Tome.init (some [(.pyStr "x", .pyStr "y")])).to_pickle_nosink false).isPickle
      = false :=
  ⟨rfl, rfl⟩

/-- C5 counterexample: the round-trip through `to_json(data_only=True)` is
not the identity on a mapping with the JSON-representable scalar key 1: the
int key comes back as the string "1". -/
theorem to_json_roundtrip_int_key_counterexample :
    to_json_data_roundtrip [(.pyInt 1, .pyInt 1)] = [(.pyStr "1", .pyInt 1)]
    ∧ to_json_data_roundtrip [(.pyInt 1, .pyInt 1)] ≠ [(.pyInt 1, .pyInt 1)] :=
  ⟨by decide, by decide⟩

/-- C5 amended: the round-trip is the identity when all keys are strings
(values any modelled JSON scalar) and the keys are distinct, which Python
dictionaries guarantee. -/
theorem to_json_roundtrip_string_keys (d : PyDict)
    (hstr : ∀ kv ∈ d, ∃ s : String, kv.1 = PyVal.pyStr s)
    (hnd : (d.map Prod.fst).Nodup) :
    to_json_data_roundtrip d = d := by
  have hmap : (jsonDumpsData d).map (fun kv => (PyVal.pyStr kv.1, jValToPy kv.2)) = d := by
    rw [jsonDumpsData, List.map_map]
    have hpt : ∀ kv ∈ d, ((fun kv => ((PyVal.pyStr kv.1 : PyVal), jValToPy kv.2)) ∘
        (fun kv => (pyKeyToJsonKey kv.1, pyToJVal kv.2))) kv = id kv := by
      intro kv hkv
      obtain ⟨s, hs⟩ := hstr kv hkv
      obtain ⟨k1, v1⟩ := kv
      simp only at hs
      subst hs
      simp [Function.comp, pyKeyToJsonKey, jValToPy_pyToJVal]
    rw [List.map_congr_left hpt, List.map_id]
  rw [to_json_data_roundtrip, jsonLoadsData, hmap]
  exact dictOfPairs_nodup d hnd

/-- Witness for C5 at a concrete all-string-keys mapping. -/
theorem to_json_roundtrip_string_keys_witness :
    to_json_data_roundtrip [(.pyStr "a", .pyInt 1), (.pyStr "b", .pyBool true)]
      = [(.pyStr "a", .pyInt 1), (.pyStr "b", .pyBool true)] := by
  apply to_json_roundtrip_string_keys
  · intro kv hkv
    simp only [List.mem_cons, List.not_mem_nil, or_false] at hkv
    rcases hkv with h | h <;> (subst h; exact ⟨_, rfl⟩)
  · decide

/-- C6 counterexample: on a record with key label "k", value label "v" and
one data pair ("x", "y"), `to_csv(data_only=True)` still begins with the
key/value label line — the output is "k,v\nx,y" and not just "x,y". -/
theorem to_csv_data_only_label_line_counterexample :
    csvRecord.to_csv_nosink true defaultCsvFormat defaultHeaderFormat = .ok "k,v\nx,y"
    ∧ ("k,v\nx,y" : String) ≠ "x,y" :=
  ⟨rfl, by decide⟩

/-- C6 amended: with data_only=True, `to_csv` with no sink omits the
metadata header line but still emits the key/value label line first,
followed by one data line per pair. -/
theorem to_csv_data_only_omits_header_keeps_labels (t : Tome) (d : PyDict)
    (cf hf : String → String → String) (h : t.data = some d) :
    t.to_csv_nosink true cf hf
      = .ok ((cf t.key t.value ++ "\n")
          ++ String.intercalate "\n" (d.map fun kv => cf (pyValStr kv.1) (pyValStr kv.2))) := by
  unfold Tome.to_csv_nosink
  rw [h]
  rfl

/-- Witness for C6 at a concrete record. -/
theorem to_csv_data_only_witness :
    csvRecordW.to_csv_nosink true defaultCsvFormat defaultHeaderFormat = .ok "a,b\np,q" :=
  to_csv_data_only_omits_header_keeps_labels csvRecordW [(.pyStr "p", .pyStr "q")]
    defaultCsvFormat defaultHeaderFormat rfl

/-- C7: a record constructed without a data argument stores `None` (the
DataDict guard never runs), so the adapter operations raise TypeError on the
absent mapping instead of behaving as on an empty one. -/
theorem tome_absent_data_operations_fail :
    (Tome.init none).data = none
    ∧ (Tome.init none).length = .error .typeError
    ∧ (Tome.init none).iterKeys = .error .typeError
    ∧ (Tome.init none).getItem (.pyStr "k") = .error .typeError
    ∧ (Tome.init none).setItem (.pyStr "k") (.pyInt 1) = .error .typeError :=
  ⟨rfl, rfl, rfl, rfl, rfl⟩

/-- C8: `fuzzy_matches` raises UnboundLocalError for where="keys" and
where="values" (the branches assign the local `matches` but the function
returns `results`); only the where="both" branch returns the combined match
records. -/
theorem fuzzy_matches_keys_values_unbound_local :
    fuzzy_matches allCap [(.pyStr "cat", .pyInt 1)] "cat" "keys" 50 10
      = .error .unboundLocalError
    ∧ fuzzy_matches allCap [(.pyStr "cat", .pyInt 1)] "cat" "values" 50 10
      = .error .unboundLocalError
    ∧ fuzzy_matches allCap [(.pyStr "cat", .pyInt 1)] "cat" "both" 50 10
      = .ok [.keyMatch (.pyStr "cat") 100, .valMatch (.pyInt 1) 100 (.pyStr "cat")] :=
  ⟨rfl, rfl, rfl⟩

/-- C9 counterexample: with where="neither", the three search functions fail
with UnboundLocalError — an undefined-local fallthrough — which is not the
InvalidWhereOption error the claim names (no such error exists in the code). -/
theorem invalid_where_unbound_local_counterexample :
    regex_search [(.pyStr "a", .pyInt 1)] (.compiled caRe) "neither"
      = .error .unboundLocalError
    ∧ fuzzy_search allCap [(.pyStr "a", .pyInt 1)] "q" "neither" 50 10
      = .error .unboundLocalError
    ∧ fuzzy_matches allCap [(.pyStr "a", .pyInt 1)] "q" "neither" 50 10
      = .error .unboundLocalError
    ∧ PyErr.unboundLocalError ≠ PyErr.invalidWhereOption :=
  ⟨rfl, rfl, rfl, by decide⟩

/-- C9 amended: for every `where` outside {keys, values, both},
`regex_search` (given a precompiled pattern), `fuzzy_search` and
`fuzzy_matches` all fail with UnboundLocalError, the fallthrough of the
unassigned result local; no InvalidWhereOption error is defined anywhere
(`regex_search` with a string pattern fails even earlier with NameError). -/
theorem invalid_where_raises_unbound_local (x : PyDict) (cap : FuzzyCap)
    (r : CompiledRe) (q w : String) (c l : Nat)
    (hk : w ≠ "keys") (hv : w ≠ "values") (hb : w ≠ "both") :
    regex_search x (.compiled r) w = .error .unboundLocalError
    ∧ fuzzy_search cap x q w c l = .error .unboundLocalError
    ∧ fuzzy_matches cap x q w c l = .error .unboundLocalError := by
  refine ⟨?_, ?_, ?_⟩
  · simp [regex_search, hk, hv, hb]
  · simp [fuzzy_search, hk, hv, hb]
  · simp [fuzzy_matches, hb]

/-- Witness for C9 at the concrete option "neither". -/
theorem invalid_where_raises_unbound_local_witness :
    regex_search [] (.compiled caRe) "neither" = .error .unboundLocalError
    ∧ fuzzy_search allCap [] "q" "neither" 50 10 = .error .unboundLocalError
    ∧ fuzzy_matches allCap [] "q" "neither" 50 10 = .error .unboundLocalError :=
  invalid_where_raises_unbound_local [] allCap caRe "q" "neither" 50 10
    (by decide) (by decide) (by decide)

/-- C10: on a record whose mapping is present, `astype(convert)` returns a
new record whose mapping maps each original key to `convert` of its original
value, keys and metadata untouched (the original record, a pure value here,
is unchanged; the source deep-copies before rebinding `data`). -/
theorem astype_maps_values_keeps_keys (t : Tome) (d : PyDict) (f : PyVal → PyVal)
    (h : t.data = some d) :
    t.astype f = .ok { t with data := some (d.map fun kv => (kv.1, f kv.2)) } := by
  unfold Tome.astype Tome.copy
  rw [h]

/-- Witness for C10: `astype(str)` on data {1:1, 2:2} yields {1:"1", 2:"2"},
keys unchanged, values stringified. -/
theorem astype_str_witness :
    (Tome.init (some [(.pyInt 1, .pyInt 1), (.pyInt 2, .pyInt 2)])).astype pyStrConv
      = .ok (Tome.init (some [(.pyInt 1, .pyStr "1"), (.pyInt 2, .pyStr "2")])) := by
  have h := astype_maps_values_keeps_keys
    (Tome.init (some [(.pyInt 1, .pyInt 1), (.pyInt 2, .pyInt 2)]))
    [(.pyInt 1, .pyInt 1), (.pyInt 2, .pyInt 2)] pyStrConv rfl
  exact h.trans (by rfl)
